import Mathlib

/-!
Verification development for the meeting-bot recording engine.

The definitions below are shallow embeddings of the TypeScript source:

* `SpeakerEvent`, `sendGoogleSpeakerEvent`, `logGoogleSpeakerEvent`, the polling
  fallback and `detStep`/`detRun` embed the Google Meet speaker detector of
  `src/platforms/googlemeet/speaker detection` (the file exposing
  `__vexaSpeakerStart`): per-participant speaking state, the mutation-observer
  pathway keyed by the `speakingStates` map, and the 500 ms polling pathway
  keyed by the separate `lastSpeakingById` map.
* `serializeSpeakerEvent` / `saveSpeakerEventsToFileJson` embed
  `saveSpeakerEventsToFile`, which persists `window.__vexaSpeakerEvents` with
  `JSON.stringify` (object keys in insertion order of the event literal).
* `meetingMonitorTick` embeds the 1-second `checkInterval` callback installed
  by `startGoogleRecording` (the automatic-leave watchdog).
* `gracefulLeaveStep` and friends embed `performGracefulLeave` and its
  `isShuttingDown` guard as an interleaving machine: the guard check-and-set
  is one atomic step (no `await` separates them in the source), the teardown
  steps of the winning invocation are further atomic steps.
* `intendedExitCode` / `finalExitCode` embed the trigger-to-exit-code mapping
  of `runBot`, `gracefulShutdown` and `performGracefulLeave`.
* `initRecordingServices` embeds the sequential pipeline-initialization
  section of `startGoogleRecording`.
* `parseAutomaticLeave` / `leaveCfgGet` embed `BotConfigSchema`'s
  `automaticLeave` object (zod strips unknown keys) and the monitoring code's
  reads of `leaveCfg.startupAloneTimeoutSeconds` / `everyoneLeftTimeoutSeconds`.
* `saveBlobToFile` / `persistRecordingArtifacts` embed the blob-persistence
  path of the recording coordinator (filesystem writes modelled as succeeding;
  the absent-blob early return is the behaviour under scrutiny).
-/

/-- A minimal JSON value AST used to model `JSON.stringify`/`JSON.parse` of the
speaker-event log.  Object fields are kept in serialization order. -/
inductive JsonVal where
  | jnull : JsonVal
  | jbool (b : Bool) : JsonVal
  | jnum (n : Int) : JsonVal
  | jstr (s : String) : JsonVal
  | jarr (elems : List JsonVal) : JsonVal
  | jobj (fields : List (String × JsonVal)) : JsonVal

/-- The keys of a JSON object (empty for non-objects), in order. -/
def jsonObjKeys : JsonVal → List String
  | .jobj fields => fields.map Prod.fst
  | _ => []

/-- Event type of a speaker transition, as in the `SpeakerEvent` interface:
`'SPEAKER_START' | 'SPEAKER_END'`. -/
inductive EvType where
  | SPEAKER_START : EvType
  | SPEAKER_END : EvType
deriving DecidableEq, Repr

/-- The string the source stores in the `eventType` field. -/
def evTypeString : EvType → String
  | .SPEAKER_START => "SPEAKER_START"
  | .SPEAKER_END => "SPEAKER_END"

/-- `SpeakerEvent` record pushed onto `speakerEvents` by
`sendGoogleSpeakerEvent`, field for field (field order as in the source's
object literal: eventType, participantName, participantId, timestamp). -/
structure SpeakerEvent where
  eventType : EvType
  participantName : String
  participantId : String
  timestamp : Int
deriving DecidableEq, Repr

/-- `JSON.stringify` of a single speaker-event record: an object whose keys
appear in the insertion order of the event literal in
`sendGoogleSpeakerEvent`. -/
def serializeSpeakerEvent (e : SpeakerEvent) : JsonVal :=
  .jobj [("eventType", .jstr (evTypeString e.eventType)),
         ("participantName", .jstr e.participantName),
         ("participantId", .jstr e.participantId),
         ("timestamp", .jnum e.timestamp)]

/-- The JSON document `saveSpeakerEventsToFile` writes: `JSON.stringify` of the
`window.__vexaSpeakerEvents` array. -/
def saveSpeakerEventsToFileJson (events : List SpeakerEvent) : JsonVal :=
  .jarr (events.map serializeSpeakerEvent)

/-- Reading one record back from the persisted file: field lookups on the
parsed JSON object (the repository ships no reader; this is the evident
inverse used to state the round-trip property). -/
def parseSpeakerEvent (v : JsonVal) : Option SpeakerEvent :=
  match v with
  | .jobj fields =>
    match fields.lookup "eventType", fields.lookup "participantName",
          fields.lookup "participantId", fields.lookup "timestamp" with
    | some (.jstr ty), some (.jstr pname), some (.jstr pid), some (.jnum ts) =>
      if ty = "SPEAKER_START" then
        some ⟨.SPEAKER_START, pname, pid, ts⟩
      else if ty = "SPEAKER_END" then
        some ⟨.SPEAKER_END, pname, pid, ts⟩
      else none
    | _, _, _, _ => none
  | _ => none

/-- Reading the whole persisted array back, element by element. -/
def parseSpeakerEventList : List JsonVal → Option (List SpeakerEvent)
  | [] => some []
  | v :: rest =>
    match parseSpeakerEvent v, parseSpeakerEventList rest with
    | some e, some es => some (e :: es)
    | _, _ => none

/-- Reading the persisted file: it must be a JSON array of records. -/
def parseSpeakerEventsFile (v : JsonVal) : Option (List SpeakerEvent) :=
  match v with
  | .jarr elems => parseSpeakerEventList elems
  | _ => none

theorem parseSpeakerEvent_serialize (e : SpeakerEvent) :
    parseSpeakerEvent (serializeSpeakerEvent e) = some e := by
  cases e with
  | mk ty pname pid ts => cases ty <;> rfl

theorem parseSpeakerEventsFile_save (events : List SpeakerEvent) :
    parseSpeakerEventsFile (saveSpeakerEventsToFileJson events) = some events := by
  unfold parseSpeakerEventsFile saveSpeakerEventsToFileJson
  induction events with
  | nil => rfl
  | cons e rest ih =>
    simp only [List.map_cons, parseSpeakerEventList, parseSpeakerEvent_serialize]
    simp only [List.map] at ih
    rw [ih]

/-- A detection trigger for one participant representation: either a
mutation-observer callback (`logGoogleSpeakerEvent`) or one element's visit in
a 500 ms poll tick.  `speaking` abstracts the logical speaking signal the
source computes as `hasSpeakingIndicator(el) || inferSpeakingFromClasses(el).speaking`;
`time` is the value of `Date.now()` during the trigger. -/
inductive TrigKind where
  | mutation : TrigKind
  | poll : TrigKind
deriving DecidableEq, Repr

/-- One detection trigger observed for a participant representation. -/
structure Trigger where
  kind : TrigKind
  pid : String
  pname : String
  speaking : Bool
  time : Int
deriving DecidableEq, Repr

/-- Detector state: the two *independent* speaking maps of the source
(`speakingStates`, defaulted to `'silent'` on miss, here `false`; and the
polling pathway's `lastSpeakingById`, whose misses are observable via
`lastSpeakingById.has`), `sessionStartTime`, and the `speakerEvents` array. -/
structure DetState where
  speakingStates : String → Bool
  lastSpeakingById : String → Option Bool
  sessionStartTime : Option Int
  events : List SpeakerEvent

/-- `sendGoogleSpeakerEvent`: lazily initializes `sessionStartTime`, computes
the session-relative timestamp, and pushes the event record. -/
def sendGoogleSpeakerEvent (s : DetState) (ty : EvType) (pid pname : String)
    (time : Int) : DetState :=
  let start := s.sessionStartTime.getD time
  { s with
    sessionStartTime := some start,
    events := s.events ++ [⟨ty, pname, pid, time - start⟩] }

/-- `logGoogleSpeakerEvent` (mutation-observer pathway): emits a transition
only when the logical state differs from `speakingStates.get(id) || 'silent'`,
then records the new state in `speakingStates`. -/
def logGoogleSpeakerEvent (s : DetState) (pid pname : String) (speaking : Bool)
    (time : Int) : DetState :=
  let previousSpeaking := s.speakingStates pid
  if speaking then
    let s' := if previousSpeaking then s
              else sendGoogleSpeakerEvent s .SPEAKER_START pid pname time
    { s' with speakingStates := fun x => if x = pid then true else s'.speakingStates x }
  else
    let s' := if previousSpeaking then sendGoogleSpeakerEvent s .SPEAKER_END pid pname time
              else s
    { s' with speakingStates := fun x => if x = pid then false else s'.speakingStates x }

/-- One participant's visit inside the 500 ms polling fallback of
`startDetection`: compares against `lastSpeakingById.get(id) || false`, emits,
and updates both `lastSpeakingById` and `speakingStates`; an id never seen by
the poll is only recorded (`lastSpeakingById.set(id, indicatorSpeaking)`)
when no event fires. -/
def pollGoogleSpeakerCheck (s : DetState) (pid pname : String) (speaking : Bool)
    (time : Int) : DetState :=
  let prev := (s.lastSpeakingById pid).getD false
  if speaking && !prev then
    let s' := sendGoogleSpeakerEvent s .SPEAKER_START pid pname time
    { s' with
      lastSpeakingById := fun x => if x = pid then some true else s'.lastSpeakingById x,
      speakingStates := fun x => if x = pid then true else s'.speakingStates x }
  else if !speaking && prev then
    let s' := sendGoogleSpeakerEvent s .SPEAKER_END pid pname time
    { s' with
      lastSpeakingById := fun x => if x = pid then some false else s'.lastSpeakingById x,
      speakingStates := fun x => if x = pid then false else s'.speakingStates x }
  else if (s.lastSpeakingById pid).isNone then
    { s with lastSpeakingById := fun x => if x = pid then some speaking else s.lastSpeakingById x }
  else s

/-- One detection trigger. -/
def detStep (s : DetState) (t : Trigger) : DetState :=
  match t.kind with
  | .mutation => logGoogleSpeakerEvent s t.pid t.pname t.speaking t.time
  | .poll => pollGoogleSpeakerCheck s t.pid t.pname t.speaking t.time

/-- Running the detector over a sequence of triggers. -/
def detRun (s : DetState) (ts : List Trigger) : DetState :=
  ts.foldl detStep s

/-- Detector state right after `startDetection` set `sessionStartTime`:
both maps empty, no events. -/
def detInit (t0 : Int) : DetState :=
  { speakingStates := fun _ => false,
    lastSpeakingById := fun _ => none,
    sessionStartTime := some t0,
    events := [] }

/-- The event types logged for one participant id, in log order. -/
def eventsFor (pid : String) (events : List SpeakerEvent) : List EvType :=
  (events.filter (fun e => e.participantId = pid)).map SpeakerEvent.eventType

/-- `alternatesFrom expectStart l`: the list strictly alternates, the first
element being a START exactly when `expectStart`. -/
def alternatesFrom : Bool → List EvType → Bool
  | _, [] => true
  | b, .SPEAKER_START :: rest => b && alternatesFrom false rest
  | b, .SPEAKER_END :: rest => !b && alternatesFrom true rest

/-- Strict alternation starting with SPEAKER_START. -/
def strictlyAlternates (l : List EvType) : Bool :=
  alternatesFrom true l

/-- The expectation left after consuming a list of the given length. -/
def expAfter (b : Bool) (l : List EvType) : Bool :=
  if l.length % 2 = 0 then b else !b


theorem expAfter_cons (b : Bool) (x : EvType) (l : List EvType) :
    expAfter b (x :: l) = expAfter (!b) l := by
  unfold expAfter
  simp only [List.length_cons]
  by_cases hp : l.length % 2 = 0
  · have h1 : (l.length + 1) % 2 = 1 := by omega
    simp [hp, h1]
  · have h0 : l.length % 2 = 1 := by omega
    have h1 : (l.length + 1) % 2 = 0 := by omega
    simp [hp, h1]

theorem expAfter_append_singleton (b : Bool) (l : List EvType) (x : EvType) :
    expAfter b (l ++ [x]) = !(expAfter b l) := by
  unfold expAfter
  simp only [List.length_append, List.length_cons, List.length_nil]
  by_cases hp : l.length % 2 = 0
  · have h1 : (l.length + (0 + 1)) % 2 = 1 := by omega
    simp [hp, h1]
  · have h0 : l.length % 2 = 1 := by omega
    have h1 : (l.length + (0 + 1)) % 2 = 0 := by omega
    simp [hp, h1]

theorem alternatesFrom_append (b : Bool) (l₁ l₂ : List EvType) :
    alternatesFrom b (l₁ ++ l₂)
      = (alternatesFrom b l₁ && alternatesFrom (expAfter b l₁) l₂) := by
  induction l₁ generalizing b with
  | nil => simp [alternatesFrom, expAfter]
  | cons x rest ih =>
    cases x <;> cases b <;>
      simp [alternatesFrom, ih, expAfter_cons, Bool.and_assoc]

theorem eventsFor_append (pid : String) (l : List SpeakerEvent) (e : SpeakerEvent) :
    eventsFor pid (l ++ [e])
      = eventsFor pid l ++ (if e.participantId = pid then [e.eventType] else []) := by
  unfold eventsFor
  rw [List.filter_append, List.map_append]
  by_cases h : e.participantId = pid <;> simp [h]

theorem logGoogleSpeakerEvent_events (s : DetState) (pid' pname : String)
    (speaking : Bool) (tm : Int) :
    (logGoogleSpeakerEvent s pid' pname speaking tm).events
      = s.events ++
        (if speaking && !(s.speakingStates pid') then
           [⟨.SPEAKER_START, pname, pid', tm - s.sessionStartTime.getD tm⟩]
         else if !speaking && s.speakingStates pid' then
           [⟨.SPEAKER_END, pname, pid', tm - s.sessionStartTime.getD tm⟩]
         else []) := by
  cases speaking <;> cases hprev : s.speakingStates pid' <;>
    simp [logGoogleSpeakerEvent, sendGoogleSpeakerEvent, hprev]

theorem logGoogleSpeakerEvent_speakingStates (s : DetState) (pid' pname : String)
    (speaking : Bool) (tm : Int) :
    (logGoogleSpeakerEvent s pid' pname speaking tm).speakingStates
      = fun x => if x = pid' then speaking else s.speakingStates x := by
  funext x
  cases speaking <;> cases hprev : s.speakingStates pid' <;>
    simp [logGoogleSpeakerEvent, sendGoogleSpeakerEvent, hprev]

theorem pollGoogleSpeakerCheck_events (s : DetState) (pid' pname : String)
    (speaking : Bool) (tm : Int) :
    (pollGoogleSpeakerCheck s pid' pname speaking tm).events
      = s.events ++
        (if speaking && !((s.lastSpeakingById pid').getD false) then
           [⟨.SPEAKER_START, pname, pid', tm - s.sessionStartTime.getD tm⟩]
         else if !speaking && (s.lastSpeakingById pid').getD false then
           [⟨.SPEAKER_END, pname, pid', tm - s.sessionStartTime.getD tm⟩]
         else []) := by
  cases speaking <;> rcases hentry : s.lastSpeakingById pid' with _ | b <;>
    first
      | (cases b <;> simp [pollGoogleSpeakerCheck, sendGoogleSpeakerEvent, hentry])
      | simp [pollGoogleSpeakerCheck, sendGoogleSpeakerEvent, hentry]

theorem pollGoogleSpeakerCheck_lastSpeakingById (s : DetState) (pid' pname : String)
    (speaking : Bool) (tm : Int) :
    (pollGoogleSpeakerCheck s pid' pname speaking tm).lastSpeakingById
      = fun x => if x = pid' then some speaking else s.lastSpeakingById x := by
  funext x
  by_cases hx : x = pid'
  · subst hx
    cases speaking <;> rcases hentry : s.lastSpeakingById x with _ | b <;>
      first
        | (cases b <;> simp [pollGoogleSpeakerCheck, sendGoogleSpeakerEvent, hentry])
        | simp [pollGoogleSpeakerCheck, sendGoogleSpeakerEvent, hentry]
  · cases speaking <;> rcases hentry : s.lastSpeakingById pid' with _ | b <;>
      first
        | (cases b <;> simp [pollGoogleSpeakerCheck, sendGoogleSpeakerEvent, hentry, hx])
        | simp [pollGoogleSpeakerCheck, sendGoogleSpeakerEvent, hentry, hx]


/-- Invariant tying a participant's logged event types to the
mutation-observer pathway's `speakingStates` entry. -/
def MutInv (pid : String) (s : DetState) : Prop :=
  strictlyAlternates (eventsFor pid s.events) = true ∧
  expAfter true (eventsFor pid s.events) = !(s.speakingStates pid)

/-- Invariant tying a participant's logged event types to the polling
pathway's `lastSpeakingById` entry. -/
def PollInv (pid : String) (s : DetState) : Prop :=
  strictlyAlternates (eventsFor pid s.events) = true ∧
  expAfter true (eventsFor pid s.events) = !((s.lastSpeakingById pid).getD false)

theorem logGoogleSpeakerEvent_mutInv (pid pid' pname : String) (speaking : Bool)
    (tm : Int) (s : DetState) (h : MutInv pid s) :
    MutInv pid (logGoogleSpeakerEvent s pid' pname speaking tm) := by
  obtain ⟨h1, h2⟩ := h
  unfold strictlyAlternates at h1
  unfold MutInv strictlyAlternates
  rw [logGoogleSpeakerEvent_events, logGoogleSpeakerEvent_speakingStates]
  by_cases hq : pid' = pid
  · subst hq
    cases hsp : speaking <;> cases hprev : s.speakingStates pid' <;>
      constructor <;>
      simp [hprev, eventsFor_append, alternatesFrom_append,
        expAfter_append_singleton, h1, h2, alternatesFrom]
  · have hq' : ¬ pid = pid' := fun hh => hq hh.symm
    cases hsp : speaking <;> cases hprev : s.speakingStates pid' <;>
      constructor <;>
      simp [hprev, eventsFor_append, hq, hq', h1, h2]

theorem pollGoogleSpeakerCheck_pollInv (pid pid' pname : String) (speaking : Bool)
    (tm : Int) (s : DetState) (h : PollInv pid s) :
    PollInv pid (pollGoogleSpeakerCheck s pid' pname speaking tm) := by
  obtain ⟨h1, h2⟩ := h
  unfold strictlyAlternates at h1
  unfold PollInv strictlyAlternates
  rw [pollGoogleSpeakerCheck_events, pollGoogleSpeakerCheck_lastSpeakingById]
  by_cases hq : pid' = pid
  · subst hq
    cases hsp : speaking <;> cases hprev : (s.lastSpeakingById pid').getD false <;>
      constructor <;>
      simp [hprev, eventsFor_append, alternatesFrom_append,
        expAfter_append_singleton, h1, h2, alternatesFrom]
  · have hq' : ¬ pid = pid' := fun hh => hq hh.symm
    cases hsp : speaking <;> cases hprev : (s.lastSpeakingById pid').getD false <;>
      constructor <;>
      simp [hprev, eventsFor_append, hq, hq', h1, h2]

theorem detRun_mutInv (pid : String) (ts : List Trigger)
    (hts : ∀ t ∈ ts, t.kind = .mutation) (s : DetState) (h : MutInv pid s) :
    MutInv pid (detRun s ts) := by
  induction ts generalizing s with
  | nil => exact h
  | cons t rest ih =>
    have hk : t.kind = .mutation := hts t (by simp)
    have hrest : ∀ u ∈ rest, u.kind = .mutation := fun u hu => hts u (by simp [hu])
    unfold detRun at ih ⊢
    simp only [List.foldl_cons]
    have hstep : MutInv pid (detStep s t) := by
      simp only [detStep, hk]
      exact logGoogleSpeakerEvent_mutInv pid t.pid t.pname t.speaking t.time s h
    exact ih hrest _ hstep

theorem detRun_pollInv (pid : String) (ts : List Trigger)
    (hts : ∀ t ∈ ts, t.kind = .poll) (s : DetState) (h : PollInv pid s) :
    PollInv pid (detRun s ts) := by
  induction ts generalizing s with
  | nil => exact h
  | cons t rest ih =>
    have hk : t.kind = .poll := hts t (by simp)
    have hrest : ∀ u ∈ rest, u.kind = .poll := fun u hu => hts u (by simp [hu])
    unfold detRun at ih ⊢
    simp only [List.foldl_cons]
    have hstep : PollInv pid (detStep s t) := by
      simp only [detStep, hk]
      exact pollGoogleSpeakerCheck_pollInv pid t.pid t.pname t.speaking t.time s h
    exact ih hrest _ hstep

theorem detInit_mutInv (pid : String) (t0 : Int) : MutInv pid (detInit t0) := by
  constructor <;> simp [detInit, eventsFor, strictlyAlternates, alternatesFrom, expAfter]

theorem detInit_pollInv (pid : String) (t0 : Int) : PollInv pid (detInit t0) := by
  constructor <;> simp [detInit, eventsFor, strictlyAlternates, alternatesFrom, expAfter]

/-- Claim C1: FALSE as stated.  A mutation-observer callback (which consults
`speakingStates`) followed by a 500 ms poll tick (which consults the separate
`lastSpeakingById` map, initially empty) emits SPEAKER_START twice in a row
for the same participant with no intervening SPEAKER_END: the two detection
pathways do not share transition state. -/
theorem c1_speaker_alternation_counterexample :
    eventsFor "p1"
        (detRun (detInit 100)
          [⟨.mutation, "p1", "Alice", true, 100⟩,
           ⟨.poll, "p1", "Alice", true, 150⟩]).events
      = [.SPEAKER_START, .SPEAKER_START] ∧
    strictlyAlternates
        (eventsFor "p1"
          (detRun (detInit 100)
            [⟨.mutation, "p1", "Alice", true, 100⟩,
             ⟨.poll, "p1", "Alice", true, 150⟩]).events)
      = false := by
  constructor <;> rfl

/-- Claim C1 (amended): for every participant, the emitted speaker events
strictly alternate SPEAKER_START, SPEAKER_END, … provided the sequence of
detection triggers stays within a single detection pathway (only
mutation-observer callbacks, or only poll ticks); interleaving the two
pathways can break alternation because each keeps its own speaking map. -/
theorem c1_speaker_alternation_single_pathway (t0 : Int) (ts : List Trigger)
    (pid : String)
    (h : (∀ t ∈ ts, t.kind = .mutation) ∨ (∀ t ∈ ts, t.kind = .poll)) :
    strictlyAlternates (eventsFor pid (detRun (detInit t0) ts).events) = true := by
  cases h with
  | inl hm => exact (detRun_mutInv pid ts hm _ (detInit_mutInv pid t0)).1
  | inr hp => exact (detRun_pollInv pid ts hp _ (detInit_pollInv pid t0)).1

/-- Witness for the amended C1 at a concrete mutation-only trigger sequence. -/
theorem c1_speaker_alternation_single_pathway_witness :
    strictlyAlternates (eventsFor "p1"
      (detRun (detInit 0)
        [⟨.mutation, "p1", "Alice", true, 5⟩,
         ⟨.mutation, "p1", "Alice", false, 9⟩,
         ⟨.mutation, "p2", "Bob", true, 12⟩,
         ⟨.mutation, "p1", "Alice", true, 20⟩]).events) = true :=
  c1_speaker_alternation_single_pathway 0 _ "p1" (Or.inl (by decide))

/-- Timestamp invariant: `sessionStartTime` stays pinned at the start value
and every logged timestamp is non-negative. -/
def TimeInv (t0 : Int) (s : DetState) : Prop :=
  s.sessionStartTime = some t0 ∧ ∀ e ∈ s.events, 0 ≤ e.timestamp

theorem logGoogleSpeakerEvent_sessionStartTime (t0 : Int) (s : DetState)
    (pid' pname : String) (speaking : Bool) (tm : Int)
    (h : s.sessionStartTime = some t0) :
    (logGoogleSpeakerEvent s pid' pname speaking tm).sessionStartTime = some t0 := by
  cases speaking <;> cases hprev : s.speakingStates pid' <;>
    simp [logGoogleSpeakerEvent, sendGoogleSpeakerEvent, hprev, h]

theorem pollGoogleSpeakerCheck_sessionStartTime (t0 : Int) (s : DetState)
    (pid' pname : String) (speaking : Bool) (tm : Int)
    (h : s.sessionStartTime = some t0) :
    (pollGoogleSpeakerCheck s pid' pname speaking tm).sessionStartTime = some t0 := by
  cases speaking <;> rcases hentry : s.lastSpeakingById pid' with _ | b <;>
    first
      | (cases b <;> simp [pollGoogleSpeakerCheck, sendGoogleSpeakerEvent, hentry, h])
      | simp [pollGoogleSpeakerCheck, sendGoogleSpeakerEvent, hentry, h]

theorem detStep_timeInv (t0 : Int) (s : DetState) (t : Trigger)
    (ht : t0 ≤ t.time) (h : TimeInv t0 s) : TimeInv t0 (detStep s t) := by
  obtain ⟨hstart, hev⟩ := h
  cases hk : t.kind with
  | mutation =>
    simp only [detStep, hk]
    refine ⟨logGoogleSpeakerEvent_sessionStartTime t0 s _ _ _ _ hstart, ?_⟩
    rw [logGoogleSpeakerEvent_events]
    intro e he
    rcases List.mem_append.mp he with hold | hnew
    · exact hev e hold
    · split at hnew <;> simp_all
  | poll =>
    simp only [detStep, hk]
    refine ⟨pollGoogleSpeakerCheck_sessionStartTime t0 s _ _ _ _ hstart, ?_⟩
    rw [pollGoogleSpeakerCheck_events]
    intro e he
    rcases List.mem_append.mp he with hold | hnew
    · exact hev e hold
    · split at hnew <;> simp_all

theorem detRun_timeInv (t0 : Int) (ts : List Trigger)
    (htime : ∀ t ∈ ts, t0 ≤ t.time) (s : DetState) (h : TimeInv t0 s) :
    TimeInv t0 (detRun s ts) := by
  induction ts generalizing s with
  | nil => exact h
  | cons t rest ih =>
    have h1 : t0 ≤ t.time := htime t (by simp)
    have hrest : ∀ u ∈ rest, t0 ≤ u.time := fun u hu => htime u (by simp [hu])
    unfold detRun at ih ⊢
    simp only [List.foldl_cons]
    exact ih hrest _ (detStep_timeInv t0 s t h1 h)

/-- Claim C3: FALSE as stated.  On a concrete detector log, the persisted
record's JSON keys are eventType, participantName, participantId, timestamp —
not the claimed type, participantId, participantName, relativeTimestampMs. -/
theorem c3_persisted_fields_counterexample :
    (detRun (detInit 0) [⟨.mutation, "p1", "Alice", true, 3⟩]).events.map
        (fun e => jsonObjKeys (serializeSpeakerEvent e))
      = [["eventType", "participantName", "participantId", "timestamp"]] ∧
    ¬ "type" ∈ (["eventType", "participantName", "participantId", "timestamp"] : List String) ∧
    ¬ "relativeTimestampMs" ∈ (["eventType", "participantName", "participantId", "timestamp"] : List String) := by
  refine ⟨rfl, by decide, by decide⟩

/-- Claim C3 (amended): the persisted speaker-event file is a JSON array whose
records each have exactly the fields eventType, participantName,
participantId, timestamp (in this order); parsing the file back reproduces the
detector's ordered event sequence, and — when trigger times do not precede the
session start — every timestamp is a non-negative integer. -/
theorem c3_event_file_roundtrip (t0 : Int) (ts : List Trigger)
    (htime : ∀ t ∈ ts, t0 ≤ t.time) :
    parseSpeakerEventsFile
        (saveSpeakerEventsToFileJson (detRun (detInit t0) ts).events)
      = some (detRun (detInit t0) ts).events ∧
    (∀ e ∈ (detRun (detInit t0) ts).events, 0 ≤ e.timestamp) ∧
    (∀ e ∈ (detRun (detInit t0) ts).events,
      jsonObjKeys (serializeSpeakerEvent e)
        = ["eventType", "participantName", "participantId", "timestamp"]) := by
  have htv : TimeInv t0 (detRun (detInit t0) ts) := by
    apply detRun_timeInv t0 ts htime
    exact ⟨rfl, by intro e he; simp [detInit] at he⟩
  exact ⟨parseSpeakerEventsFile_save _, htv.2, fun e _ => rfl⟩

/-- Witness for the amended C3 at a concrete trigger sequence. -/
theorem c3_event_file_roundtrip_witness :
    parseSpeakerEventsFile
        (saveSpeakerEventsToFileJson
          (detRun (detInit 0) [⟨.mutation, "p1", "Alice", true, 3⟩]).events)
      = some (detRun (detInit 0) [⟨.mutation, "p1", "Alice", true, 3⟩]).events ∧
    (∀ e ∈ (detRun (detInit 0) [⟨.mutation, "p1", "Alice", true, 3⟩]).events,
      0 ≤ e.timestamp) ∧
    (∀ e ∈ (detRun (detInit 0) [⟨.mutation, "p1", "Alice", true, 3⟩]).events,
      jsonObjKeys (serializeSpeakerEvent e)
        = ["eventType", "participantName", "participantId", "timestamp"]) :=
  c3_event_file_roundtrip 0 [⟨.mutation, "p1", "Alice", true, 3⟩] (by decide)

/-- State of the 1-second `checkInterval` callback installed by
`startGoogleRecording`'s monitoring block: `aloneTime`,
`lastParticipantCount`, `speakersIdentified`, `hasEverHadMultipleParticipants`,
the `__vexaRecordingRejected` reason if set (`fired`), and whether
`clearInterval` has run (`stopped`). -/
structure MonState where
  aloneTime : Nat
  lastParticipantCount : Nat
  speakersIdentified : Bool
  hasEverHadMultipleParticipants : Bool
  fired : Option String
  stopped : Bool
deriving DecidableEq, Repr

/-- Initial monitoring state. -/
def monInit : MonState :=
  { aloneTime := 0, lastParticipantCount := 0, speakersIdentified := false,
    hasEverHadMultipleParticipants := false, fired := none, stopped := false }

/-- One tick of the monitoring `setInterval` callback.  `count` is the value
of `__vexaGetActiveParticipantsCount()`.  After `clearInterval` the callback
no longer runs, modelled as the identity. -/
def meetingMonitorTick (startupAloneTimeoutSeconds everyoneLeftTimeoutSeconds : Nat)
    (s : MonState) (count : Nat) : MonState :=
  if s.stopped then s else
  let s :=
    if count ≠ s.lastParticipantCount then
      let s := { s with lastParticipantCount := count }
      if count > 1 then
        { s with hasEverHadMultipleParticipants := true, speakersIdentified := true }
      else s
    else s
  if count ≤ 1 then
    let s := { s with aloneTime := s.aloneTime + 1 }
    let currentTimeout :=
      if s.speakersIdentified then everyoneLeftTimeoutSeconds
      else startupAloneTimeoutSeconds
    if s.aloneTime ≥ currentTimeout then
      if s.speakersIdentified then
        { s with stopped := true, fired := some "GOOGLE_MEET_BOT_LEFT_ALONE_TIMEOUT" }
      else
        { s with stopped := true, fired := some "GOOGLE_MEET_BOT_STARTUP_ALONE_TIMEOUT" }
    else s
  else
    let s := { s with aloneTime := 0 }
    if s.hasEverHadMultipleParticipants && !s.speakersIdentified then
      { s with speakersIdentified := true }
    else s

/-- Running the monitor over a sequence of per-tick participant counts. -/
def monRun (startupT everyoneT : Nat) (s : MonState) (counts : List Nat) : MonState :=
  counts.foldl (meetingMonitorTick startupT everyoneT) s

/-- The watchdog-relevant observables of a monitoring state: everything except
`lastParticipantCount`. -/
def MonState.obs (s : MonState) : Nat × Bool × Bool × Option String × Bool :=
  (s.aloneTime, s.speakersIdentified, s.hasEverHadMultipleParticipants, s.fired, s.stopped)

theorem monRun_stopped (p q : Nat) (s : MonState) (hs : s.stopped = true)
    (counts : List Nat) : monRun p q s counts = s := by
  induction counts with
  | nil => rfl
  | cons c rest ih =>
    unfold monRun at ih ⊢
    simp only [List.foldl_cons]
    rw [show meetingMonitorTick p q s c = s by simp [meetingMonitorTick, hs]]
    exact ih

theorem meetingMonitorTick_not_stopped (p q a l : Nat) (sp he : Bool)
    (fr : Option String) (c : Nat) :
    meetingMonitorTick p q ⟨a, l, sp, he, fr, false⟩ c
      = if c ≤ 1 then
          (if (if sp then q else p) ≤ a + 1 then
            ⟨a + 1, c, sp, he,
             some (if sp then "GOOGLE_MEET_BOT_LEFT_ALONE_TIMEOUT"
                   else "GOOGLE_MEET_BOT_STARTUP_ALONE_TIMEOUT"), true⟩
           else ⟨a + 1, c, sp, he, fr, false⟩)
        else ⟨0, c, sp || he || decide (c ≠ l), he || decide (c ≠ l), fr, false⟩ := by
  by_cases h2 : c ≤ 1
  · have hm : ¬ 1 < c := by omega
    by_cases h1 : c = l <;> cases sp <;> cases he <;>
      simp [meetingMonitorTick, h1, h2, hm]
  · have hm : 1 < c := by omega
    by_cases h1 : c = l <;> cases sp <;> cases he <;>
      simp [meetingMonitorTick, h1, h2, hm]

theorem meetingMonitorTick_speakers_mono (p q : Nat) (s : MonState) (c : Nat)
    (h : s.speakersIdentified = true) :
    (meetingMonitorTick p q s c).speakersIdentified = true := by
  obtain ⟨a, l, sp, he, fr, st⟩ := s
  simp only at h
  subst h
  cases st with
  | true => simp [meetingMonitorTick]
  | false =>
    rw [meetingMonitorTick_not_stopped]
    split_ifs <;> rfl

theorem monRun_speakers_mono (p q : Nat) (counts : List Nat) (s : MonState)
    (h : s.speakersIdentified = true) :
    (monRun p q s counts).speakersIdentified = true := by
  induction counts generalizing s with
  | nil => exact h
  | cons c rest ih =>
    unfold monRun at ih ⊢
    simp only [List.foldl_cons]
    exact ih _ (meetingMonitorTick_speakers_mono p q s c h)

/-- Claim C5: a tick observing a count > 1 sets `speakersIdentified` (under
the reachability invariant `lastParticipantCount > 1 → speakersIdentified`),
resets the alone counter to 0, the flag then stays true over any further tick
sequence, and after a count of 2 a run of 10 alone ticks (with
`everyoneLeftTimeoutSeconds = 10`) fires GOOGLE_MEET_BOT_LEFT_ALONE_TIMEOUT,
not the startup variant. -/
theorem c5_speakers_identified_permanent (s : MonState) (c : Nat)
    (counts : List Nat) (hs : s.stopped = false) (hc : 1 < c)
    (hinv : 1 < s.lastParticipantCount → s.speakersIdentified = true) :
    (meetingMonitorTick 1200 10 s c).speakersIdentified = true ∧
    (meetingMonitorTick 1200 10 s c).aloneTime = 0 ∧
    (monRun 1200 10 (meetingMonitorTick 1200 10 s c) counts).speakersIdentified
      = true ∧
    monRun 1200 10 monInit (2 :: List.replicate 10 1)
      = { aloneTime := 10, lastParticipantCount := 1, speakersIdentified := true,
          hasEverHadMultipleParticipants := true,
          fired := some "GOOGLE_MEET_BOT_LEFT_ALONE_TIMEOUT", stopped := true } := by
  obtain ⟨a, l, sp, he, fr, st⟩ := s
  simp only at hs hinv
  subst hs
  have h2 : ¬ c ≤ 1 := by omega
  have hsp : (meetingMonitorTick 1200 10 ⟨a, l, sp, he, fr, false⟩ c).speakersIdentified = true := by
    rw [meetingMonitorTick_not_stopped]
    by_cases h1 : c = l
    · have : sp = true := hinv (by omega)
      simp [h2, this]
    · simp [h2, h1]
  refine ⟨hsp, ?_, monRun_speakers_mono 1200 10 counts _ hsp, by decide⟩
  rw [meetingMonitorTick_not_stopped]
  simp [h2]

/-- Witness for C5 at a concrete state and count. -/
theorem c5_speakers_identified_permanent_witness :
    (meetingMonitorTick 1200 10 monInit 2).speakersIdentified = true ∧
    (meetingMonitorTick 1200 10 monInit 2).aloneTime = 0 ∧
    (monRun 1200 10 (meetingMonitorTick 1200 10 monInit 2) [1, 1, 0]).speakersIdentified
      = true ∧
    monRun 1200 10 monInit (2 :: List.replicate 10 1)
      = { aloneTime := 10, lastParticipantCount := 1, speakersIdentified := true,
          hasEverHadMultipleParticipants := true,
          fired := some "GOOGLE_MEET_BOT_LEFT_ALONE_TIMEOUT", stopped := true } :=
  c5_speakers_identified_permanent monInit 2 [1, 1, 0] (by decide) (by decide)
    (by intro h; simp [monInit] at h)

/-- Claim C8: a participant count of 0 and of 1 are treated identically by the
watchdog tick (same observables: alone counter, flags, fired reason, stopped),
and the alone counter increments exactly when count ≤ 1 and is reset to 0
exactly when count > 1. -/
theorem c8_alone_boundary (p q : Nat) (s : MonState) (c : Nat)
    (hs : s.stopped = false) :
    (meetingMonitorTick p q s 0).obs = (meetingMonitorTick p q s 1).obs ∧
    (c ≤ 1 → (meetingMonitorTick p q s c).aloneTime = s.aloneTime + 1) ∧
    (1 < c → (meetingMonitorTick p q s c).aloneTime = 0) := by
  obtain ⟨a, l, sp, he, fr, st⟩ := s
  simp only at hs
  subst hs
  refine ⟨?_, ?_, ?_⟩
  · rw [meetingMonitorTick_not_stopped, meetingMonitorTick_not_stopped]
    have h0 : (0:Nat) ≤ 1 := by omega
    have h1 : (1:Nat) ≤ 1 := by omega
    simp only [if_pos h0, if_pos h1, MonState.obs]
    split_ifs <;> rfl
  · intro hc
    rw [meetingMonitorTick_not_stopped]
    simp [hc]
    split_ifs <;> rfl
  · intro hc
    have h2 : ¬ c ≤ 1 := by omega
    rw [meetingMonitorTick_not_stopped]
    simp [h2]

/-- Witness for C8 at a concrete state. -/
theorem c8_alone_boundary_witness :
    (meetingMonitorTick 1200 10 monInit 0).obs
      = (meetingMonitorTick 1200 10 monInit 1).obs ∧
    ((3 : Nat) ≤ 1 → (meetingMonitorTick 1200 10 monInit 3).aloneTime
      = monInit.aloneTime + 1) ∧
    ((1 : Nat) < 3 → (meetingMonitorTick 1200 10 monInit 3).aloneTime = 0) :=
  c8_alone_boundary 1200 10 monInit 3 (by decide)

/-- Which atomic step of a `performGracefulLeave` invocation a schedule entry
advances.  `checkGuard` is the invocation's first step: the test of
`isShuttingDown` and (when it was false) setting it to `true` are one atomic
step, because no `await` separates them in the source.  The winning
invocation then performs the platform leave attempt, `page.close()`,
`browserInstance.close()` and `process.exit` as separate atomic steps that
may interleave with other invocations. -/
inductive LeaveStep where
  | checkGuard : LeaveStep
  | platformLeave : LeaveStep
  | closePage : LeaveStep
  | closeBrowser : LeaveStep
  | exitProcess : LeaveStep
deriving DecidableEq, Repr

/-- Global shutdown state for `n` concurrent `performGracefulLeave`
invocations, counted by how far each has progressed: `nStart` invocations
have not yet checked the guard, `nLeave`/`nClosePage`/`nCloseBrowser`/`nExit`
is the number about to perform that teardown step (at most one in total,
the guard winner), `nDone` have returned.  The four counters record how many
times each teardown action has actually executed. -/
structure ShutdownState where
  isShuttingDown : Bool
  leaveCount : Nat
  pageCloseCount : Nat
  browserCloseCount : Nat
  exitCount : Nat
  nStart : Nat
  nLeave : Nat
  nClosePage : Nat
  nCloseBrowser : Nat
  nExit : Nat
  nDone : Nat
deriving DecidableEq, Repr

/-- One atomic step of the interleaved execution: advance one invocation that
is at the given program point (no-op when none is). -/
def gracefulLeaveStep (s : ShutdownState) (k : LeaveStep) : ShutdownState :=
  match k with
  | .checkGuard =>
    if s.nStart = 0 then s
    else if s.isShuttingDown then
      { s with nStart := s.nStart - 1, nDone := s.nDone + 1 }
    else
      { s with isShuttingDown := true, nStart := s.nStart - 1, nLeave := s.nLeave + 1 }
  | .platformLeave =>
    if s.nLeave = 0 then s
    else
      { s with nLeave := s.nLeave - 1, nClosePage := s.nClosePage + 1,
               leaveCount := s.leaveCount + 1 }
  | .closePage =>
    if s.nClosePage = 0 then s
    else
      { s with nClosePage := s.nClosePage - 1, nCloseBrowser := s.nCloseBrowser + 1,
               pageCloseCount := s.pageCloseCount + 1 }
  | .closeBrowser =>
    if s.nCloseBrowser = 0 then s
    else
      { s with nCloseBrowser := s.nCloseBrowser - 1, nExit := s.nExit + 1,
               browserCloseCount := s.browserCloseCount + 1 }
  | .exitProcess =>
    if s.nExit = 0 then s
    else
      { s with nExit := s.nExit - 1, nDone := s.nDone + 1,
               exitCount := s.exitCount + 1 }

/-- Interleaved execution of a schedule of atomic steps. -/
def gracefulLeaveRun (s : ShutdownState) (sched : List LeaveStep) : ShutdownState :=
  sched.foldl gracefulLeaveStep s

/-- Initial state for `n` pending `performGracefulLeave` invocations. -/
def gracefulLeaveInit (n : Nat) : ShutdownState :=
  { isShuttingDown := false, leaveCount := 0, pageCloseCount := 0,
    browserCloseCount := 0, exitCount := 0,
    nStart := n, nLeave := 0, nClosePage := 0, nCloseBrowser := 0, nExit := 0,
    nDone := 0 }

/-- All invocations have run to completion. -/
def ShutdownComplete (s : ShutdownState) : Prop :=
  s.nStart = 0 ∧ s.nLeave = 0 ∧ s.nClosePage = 0 ∧ s.nCloseBrowser = 0 ∧ s.nExit = 0

/-- Invariant of the shutdown machine for `n` invocations. -/
def ShutdownInv (n : Nat) (s : ShutdownState) : Prop :=
  s.nStart + s.nLeave + s.nClosePage + s.nCloseBrowser + s.nExit + s.nDone = n ∧
  s.leaveCount = s.nClosePage + s.nCloseBrowser + s.nExit + s.exitCount ∧
  s.pageCloseCount = s.nCloseBrowser + s.nExit + s.exitCount ∧
  s.browserCloseCount = s.nExit + s.exitCount ∧
  (s.isShuttingDown = true →
    s.nLeave + s.nClosePage + s.nCloseBrowser + s.nExit + s.exitCount = 1) ∧
  (s.isShuttingDown = false →
    s.nLeave = 0 ∧ s.nClosePage = 0 ∧ s.nCloseBrowser = 0 ∧ s.nExit = 0 ∧
    s.exitCount = 0 ∧ s.nDone = 0)

theorem gracefulLeaveStep_inv (n : Nat) (s : ShutdownState) (k : LeaveStep)
    (h : ShutdownInv n s) : ShutdownInv n (gracefulLeaveStep s k) := by
  obtain ⟨sd, lc, pc, bc, ec, n0, n1, n2, n3, n4, nd⟩ := s
  unfold ShutdownInv at h ⊢
  unfold gracefulLeaveStep
  obtain ⟨h1, h2, h3, h4, h5, h6⟩ := h
  simp only at h1 h2 h3 h4 h5 h6
  cases k <;> cases sd <;> simp_all <;> split_ifs <;> simp_all <;> omega

theorem gracefulLeaveRun_inv (n : Nat) (sched : List LeaveStep) (s : ShutdownState)
    (h : ShutdownInv n s) : ShutdownInv n (gracefulLeaveRun s sched) := by
  induction sched generalizing s with
  | nil => exact h
  | cons k rest ih =>
    unfold gracefulLeaveRun at ih ⊢
    simp only [List.foldl_cons]
    exact ih _ (gracefulLeaveStep_inv n s k h)

theorem gracefulLeaveInit_inv (n : Nat) : ShutdownInv n (gracefulLeaveInit n) := by
  unfold ShutdownInv gracefulLeaveInit
  simp

/-- Claim C2: for any number n ≥ 1 of `performGracefulLeave` invocations and
any interleaving of their atomic steps that runs all of them to completion,
each teardown step (platform leave, page close, browser close) executes
exactly once and `process.exit` is called exactly once; the n−1 invocations
that lose the `isShuttingDown` guard race return without performing any
teardown step (all n invocations finish, yet every action count is 1). -/
theorem c2_graceful_leave_idempotent (n : Nat) (sched : List LeaveStep)
    (hn : 1 ≤ n)
    (hc : ShutdownComplete (gracefulLeaveRun (gracefulLeaveInit n) sched)) :
    (gracefulLeaveRun (gracefulLeaveInit n) sched).leaveCount = 1 ∧
    (gracefulLeaveRun (gracefulLeaveInit n) sched).pageCloseCount = 1 ∧
    (gracefulLeaveRun (gracefulLeaveInit n) sched).browserCloseCount = 1 ∧
    (gracefulLeaveRun (gracefulLeaveInit n) sched).exitCount = 1 ∧
    (gracefulLeaveRun (gracefulLeaveInit n) sched).nDone = n := by
  have hinv := gracefulLeaveRun_inv n sched _ (gracefulLeaveInit_inv n)
  obtain ⟨h1, h2, h3, h4, h5, h6⟩ := hinv
  obtain ⟨hc1, hc2, hc3, hc4, hc5⟩ := hc
  cases hsd : (gracefulLeaveRun (gracefulLeaveInit n) sched).isShuttingDown with
  | false =>
    exfalso
    have := h6 hsd
    omega
  | true =>
    have := h5 hsd
    refine ⟨by omega, by omega, by omega, by omega, by omega⟩

/-- Witness for C2: two concurrent invocations whose steps interleave. -/
theorem c2_graceful_leave_idempotent_witness :
    1 ≤ 2 ∧
    ShutdownComplete (gracefulLeaveRun (gracefulLeaveInit 2)
      [.checkGuard, .checkGuard, .platformLeave, .closePage, .closeBrowser,
       .exitProcess]) ∧
    (gracefulLeaveRun (gracefulLeaveInit 2)
      [.checkGuard, .checkGuard, .platformLeave, .closePage, .closeBrowser,
       .exitProcess]).exitCount = 1 :=
  ⟨by decide,
   by unfold ShutdownComplete; exact ⟨rfl, rfl, rfl, rfl, rfl⟩,
   (c2_graceful_leave_idempotent 2
     [.checkGuard, .checkGuard, .platformLeave, .closePage, .closeBrowser,
      .exitProcess] (by decide)
     (by unfold ShutdownComplete; exact ⟨rfl, rfl, rfl, rfl, rfl⟩)).2.2.2.1⟩

/-- The termination triggers that call `performGracefulLeave`, as found in
`runBot`, the exposed `triggerNodeGracefulLeave` bridge, and the
`gracefulShutdown` signal handler. -/
inductive LeaveTrigger where
  | browserBridge : LeaveTrigger
  | platformNotImplemented : LeaveTrigger
  | unknownPlatform : LeaveTrigger
  | handlerException : LeaveTrigger
  | signalInt : LeaveTrigger
  | signalTerm : LeaveTrigger
  | normalCompletion : LeaveTrigger
deriving DecidableEq, Repr

/-- The exit code each call site passes to `performGracefulLeave`:
`triggerNodeGracefulLeave` → 0, zoom (`platform_not_implemented`) → 1,
`unknown_platform` → 1, `platform_handler_exception` → 1,
SIGINT → 130, SIGTERM → 143, `normal_completion` → 0. -/
def intendedExitCode : LeaveTrigger → Nat
  | .browserBridge => 0
  | .platformNotImplemented => 1
  | .unknownPlatform => 1
  | .handlerException => 1
  | .signalInt => 130
  | .signalTerm => 143
  | .normalCompletion => 0

/-- `performGracefulLeave`'s final code computation:
`const finalExitCode = (exitCode === 0) ? 0 : exitCode`. -/
def finalExitCode (exitCode : Nat) : Nat :=
  if exitCode = 0 then 0 else exitCode

/-- Guard-relevant state for the exit-code behaviour of repeated
`performGracefulLeave` calls: the `isShuttingDown` flag and the code passed
to `process.exit` by the single executing call, if any. -/
structure ExitState where
  isShuttingDown : Bool
  exited : Option Nat
deriving DecidableEq, Repr

/-- One `performGracefulLeave(page, exitCode, …)` call: a no-op once the
guard is set, otherwise it sets the guard and exits with `finalExitCode`. -/
def recordLeaveCall (s : ExitState) (exitCode : Nat) : ExitState :=
  if s.isShuttingDown then s
  else { isShuttingDown := true, exited := some (finalExitCode exitCode) }

/-- A sequence of `performGracefulLeave` calls from the clean-start state. -/
def runLeaveCalls (codes : List Nat) : ExitState :=
  codes.foldl recordLeaveCall ⟨false, none⟩

theorem runLeaveCalls_shutdown (codes : List Nat) (s : ExitState)
    (h : s.isShuttingDown = true) : codes.foldl recordLeaveCall s = s := by
  induction codes with
  | nil => rfl
  | cons c rest ih =>
    simp only [List.foldl_cons, recordLeaveCall, h, if_true]
    exact ih

/-- Claim C7: each termination trigger maps to its documented exit code
(0 for the browser bridge and normal completion, 1 for unimplemented or
unknown platform and handler exceptions, 130 for SIGINT, 143 for SIGTERM),
`performGracefulLeave` never changes the initiating code
(`finalExitCode` is the identity: a 0 stays 0, any non-zero code passes
through), and a run of calls exits with the first (initiating) call's code. -/
theorem c7_exit_codes :
    intendedExitCode .browserBridge = 0 ∧
    intendedExitCode .normalCompletion = 0 ∧
    intendedExitCode .platformNotImplemented = 1 ∧
    intendedExitCode .unknownPlatform = 1 ∧
    intendedExitCode .handlerException = 1 ∧
    intendedExitCode .signalInt = 130 ∧
    intendedExitCode .signalTerm = 143 ∧
    (∀ c : Nat, finalExitCode c = c) ∧
    (∀ t : LeaveTrigger, finalExitCode (intendedExitCode t) = intendedExitCode t) ∧
    (∀ (t : LeaveTrigger) (rest : List Nat),
      (runLeaveCalls (intendedExitCode t :: rest)).exited
        = some (intendedExitCode t)) := by
  refine ⟨rfl, rfl, rfl, rfl, rfl, rfl, rfl, ?_, ?_, ?_⟩
  · intro c
    unfold finalExitCode
    split_ifs with h
    · omega
    · rfl
  · intro t
    cases t <;> rfl
  · intro t rest
    unfold runLeaveCalls
    have h : recordLeaveCall ⟨false, none⟩ (intendedExitCode t)
        = ⟨true, some (finalExitCode (intendedExitCode t))⟩ := by
      simp [recordLeaveCall]
    simp only [List.foldl_cons, h]
    rw [runLeaveCalls_shutdown rest _ rfl]
    cases t <;> rfl

/-- The three sequential service initializations of `startGoogleRecording`.
Each `initializeXRecording` call either succeeds or throws with a message;
the first failure aborts, wrapped in an error naming the pipeline, and the
later pipelines are never initialized.  Returns the list of pipelines whose
init was invoked, in call order, together with the overall outcome. -/
def initRecordingServices (audioInit videoInit speakerInit : Except String Unit) :
    List String × Except String Unit :=
  match audioInit with
  | .error m => (["audio"], .error ("Audio recording initialization failed: " ++ m))
  | .ok _ =>
    match videoInit with
    | .error m =>
      (["audio", "video"], .error ("Video recording initialization failed: " ++ m))
    | .ok _ =>
      match speakerInit with
      | .error m =>
        (["audio", "video", "speaker"],
         .error ("Speaker detection initialization failed: " ++ m))
      | .ok _ => (["audio", "video", "speaker"], .ok ())

/-- Claim C6: if audio-pipeline initialization fails with message m, neither
the video nor the speaker pipeline is initialized and the start rejects with
"Audio recording initialization failed: m"; initialization is sequential and
the first failure aborts with an error naming the failed pipeline. -/
theorem c6_sequential_init (m : String)
    (videoInit speakerInit : Except String Unit) :
    (initRecordingServices (.error m) videoInit speakerInit
      = (["audio"], .error ("Audio recording initialization failed: " ++ m))) ∧
    ¬ "video" ∈ (initRecordingServices (.error m) videoInit speakerInit).1 ∧
    ¬ "speaker" ∈ (initRecordingServices (.error m) videoInit speakerInit).1 ∧
    (initRecordingServices (.ok ()) (.error m) speakerInit
      = (["audio", "video"],
         .error ("Video recording initialization failed: " ++ m))) ∧
    ¬ "speaker" ∈ (initRecordingServices (.ok ()) (.error m) speakerInit).1 ∧
    (initRecordingServices (.ok ()) (.ok ()) (.error m)
      = (["audio", "video", "speaker"],
         .error ("Speaker detection initialization failed: " ++ m))) ∧
    (initRecordingServices (.ok ()) (.ok ()) (.ok ())
      = (["audio", "video", "speaker"], .ok ())) := by
  refine ⟨rfl, ?_, ?_, rfl, ?_, rfl, rfl⟩ <;> simp [initRecordingServices]

/-- The `automaticLeave` object of a configuration accepted by
`BotConfigSchema`: zod's `z.object` requires exactly these three integer
fields and strips every unknown key from its output. -/
structure AutomaticLeaveParsed where
  waitingRoomTimeout : Int
  noOneJoinedTimeout : Int
  everyoneLeftTimeout : Int
deriving DecidableEq, Repr

/-- `BotConfigSchema`'s parse of the raw `automaticLeave` JSON object
(represented as a key/value list): the three declared keys must be present
(first occurrence wins, as in a JS object), all other keys are stripped. -/
def parseAutomaticLeave (raw : List (String × Int)) : Option AutomaticLeaveParsed :=
  match raw.lookup "waitingRoomTimeout", raw.lookup "noOneJoinedTimeout",
        raw.lookup "everyoneLeftTimeout" with
  | some w, some n, some e => some ⟨w, n, e⟩
  | _, _, _ => none

/-- JavaScript property access on the parsed `automaticLeave` object: only
the three schema fields exist; any other property reads `undefined`. -/
def leaveCfgGet (cfg : AutomaticLeaveParsed) (key : String) : Option Int :=
  if key = "waitingRoomTimeout" then some cfg.waitingRoomTimeout
  else if key = "noOneJoinedTimeout" then some cfg.noOneJoinedTimeout
  else if key = "everyoneLeftTimeout" then some cfg.everyoneLeftTimeout
  else none

/-- The monitoring block's threshold resolution:
`Number(leaveCfg.startupAloneTimeoutSeconds ?? (20 * 60))`. -/
def effectiveStartupAloneTimeoutSeconds (cfg : AutomaticLeaveParsed) : Int :=
  (leaveCfgGet cfg "startupAloneTimeoutSeconds").getD (20 * 60)

/-- The monitoring block's threshold resolution:
`Number(leaveCfg.everyoneLeftTimeoutSeconds ?? 10)`. -/
def effectiveEveryoneLeftTimeoutSeconds (cfg : AutomaticLeaveParsed) : Int :=
  (leaveCfgGet cfg "everyoneLeftTimeoutSeconds").getD 10

/-- Claim C9: for every raw configuration accepted by `BotConfigSchema`, the
watchdog's effective thresholds are the hard-coded defaults 1200 s and 10 s —
the monitoring code reads `automaticLeave.startupAloneTimeoutSeconds` and
`automaticLeave.everyoneLeftTimeoutSeconds`, which no schema-valid
configuration can carry — and in particular two configurations with different
`everyoneLeftTimeout` values yield the same watchdog thresholds. -/
theorem c9_watchdog_thresholds_fixed (raw : List (String × Int))
    (cfg : AutomaticLeaveParsed) (h : parseAutomaticLeave raw = some cfg) :
    effectiveStartupAloneTimeoutSeconds cfg = 1200 ∧
    effectiveEveryoneLeftTimeoutSeconds cfg = 10 ∧
    ∀ cfg' : AutomaticLeaveParsed,
      effectiveStartupAloneTimeoutSeconds cfg
          = effectiveStartupAloneTimeoutSeconds cfg' ∧
      effectiveEveryoneLeftTimeoutSeconds cfg
          = effectiveEveryoneLeftTimeoutSeconds cfg' := by
  refine ⟨rfl, rfl, fun cfg' => ⟨rfl, rfl⟩⟩

/-- Witness for C9 at a concrete schema-valid raw configuration that even
tries to smuggle the unknown keys in: they are stripped. -/
theorem c9_watchdog_thresholds_fixed_witness :
    parseAutomaticLeave
        [("waitingRoomTimeout", 300), ("noOneJoinedTimeout", 600),
         ("everyoneLeftTimeout", 7), ("startupAloneTimeoutSeconds", 3),
         ("everyoneLeftTimeoutSeconds", 4)]
      = some ⟨300, 600, 7⟩ ∧
    effectiveStartupAloneTimeoutSeconds ⟨300, 600, 7⟩ = 1200 ∧
    effectiveEveryoneLeftTimeoutSeconds ⟨300, 600, 7⟩ = 10 :=
  ⟨by decide,
   (c9_watchdog_thresholds_fixed
     [("waitingRoomTimeout", 300), ("noOneJoinedTimeout", 600),
      ("everyoneLeftTimeout", 7), ("startupAloneTimeoutSeconds", 3),
      ("everyoneLeftTimeoutSeconds", 4)] ⟨300, 600, 7⟩ (by decide)).1,
   (c9_watchdog_thresholds_fixed
     [("waitingRoomTimeout", 300), ("noOneJoinedTimeout", 600),
      ("everyoneLeftTimeout", 7), ("startupAloneTimeoutSeconds", 3),
      ("everyoneLeftTimeoutSeconds", 4)] ⟨300, 600, 7⟩ (by decide)).2.1⟩

/-- Outcome of `saveBlobToFile`: the file contents written (if any), whether
only a warning was logged, and whether the call threw. -/
structure SaveOutcome where
  written : Option (List Nat)
  warned : Bool
  failed : Bool
deriving DecidableEq, Repr

/-- `saveBlobToFile`: the page evaluation returns the blob's base64 payload,
or `null` when `window[name]` holds no blob; on `null` the function logs a
warning and returns without writing; otherwise it decodes and writes the
buffer (the filesystem write is modelled as succeeding). -/
def saveBlobToFile (blobData : Option (List Nat)) : SaveOutcome :=
  match blobData with
  | none => { written := none, warned := true, failed := false }
  | some bytes => { written := some bytes, warned := false, failed := false }

/-- The persistence phase of `startGoogleRecording`'s teardown: save the
audio blob to audio.webm, the video blob to video.webm, and always write
speaker-events.json.  Returns the file names written, in order. -/
def persistRecordingArtifacts (audioBlob videoBlob : Option (List Nat))
    (events : List SpeakerEvent) : List (String × JsonVal) :=
  (match (saveBlobToFile audioBlob).written with
   | some bytes => [("audio.webm", JsonVal.jarr (bytes.map fun b => JsonVal.jnum b))]
   | none => []) ++
  (match (saveBlobToFile videoBlob).written with
   | some bytes => [("video.webm", JsonVal.jarr (bytes.map fun b => JsonVal.jnum b))]
   | none => []) ++
  [("speaker-events.json", saveSpeakerEventsToFileJson events)]

/-- Claim C10: when no blob is stored under the requested name,
`saveBlobToFile` returns normally with only a warning and writes nothing, so
a session can finish successfully with the audio artifact absent while the
speaker-event log is still written. -/
theorem c10_missing_blob_is_warning (videoBlob : Option (List Nat))
    (events : List SpeakerEvent) :
    (saveBlobToFile none).written = none ∧
    (saveBlobToFile none).warned = true ∧
    (saveBlobToFile none).failed = false ∧
    ¬ "audio.webm" ∈ (persistRecordingArtifacts none videoBlob events).map Prod.fst ∧
    "speaker-events.json" ∈ (persistRecordingArtifacts none videoBlob events).map Prod.fst := by
  refine ⟨rfl, rfl, rfl, ?_, ?_⟩ <;>
    rcases videoBlob with _ | bytes <;>
      simp [persistRecordingArtifacts, saveBlobToFile]

/-- Claim C4: with `startupAloneTimeoutSeconds = 5` and a participant count of
1 on 5 consecutive ticks from session start, the watchdog fires
GOOGLE_MEET_BOT_STARTUP_ALONE_TIMEOUT exactly at the 5th tick (not at the
4th), with `speakersIdentified` still false, and after `clearInterval` any
further ticks leave the state unchanged. -/
theorem c4_startup_alone_timeout :
    monRun 5 10 monInit (List.replicate 5 1)
      = { aloneTime := 5, lastParticipantCount := 1, speakersIdentified := false,
          hasEverHadMultipleParticipants := false,
          fired := some "GOOGLE_MEET_BOT_STARTUP_ALONE_TIMEOUT", stopped := true } ∧
    (monRun 5 10 monInit (List.replicate 4 1)).fired = none ∧
    ∀ extra : List Nat,
      monRun 5 10 monInit (List.replicate 5 1 ++ extra)
        = monRun 5 10 monInit (List.replicate 5 1) := by
  refine ⟨by decide, by decide, ?_⟩
  intro extra
  unfold monRun
  rw [List.foldl_append]
  exact monRun_stopped 5 10 _ (by decide) extra
